import Mathlib

/-!
Verification of the Intel 8080 emulator core (`src/processor/mod.rs` of
timbot1789/intel_8080_emu).

Shallow embedding conventions:
* Rust `u8`/`u16` values are `Nat`s; the operations apply the same masks and
  wrap-arounds that the Rust code performs (integer overflow is modelled with
  Rust release-profile wrapping semantics, written as explicit `% 2^w`).
* The `Vec<u8>` memory is a `List Nat`; `Vec` indexing panics when the index
  is out of bounds, which is modelled by `Option`: a memory access out of
  bounds makes the operation return `none`.
* Each `fn` of `impl Processor` becomes a function `Processor → ... → Option
  Processor` (or a pure function when the Rust code cannot panic).
-/

namespace Intel8080

/-- The five 8080 condition bits (struct `ConditionBits`). -/
structure ConditionBits where
  carry : Bool
  aux_carry : Bool
  sign : Bool
  zero : Bool
  parity : Bool
deriving DecidableEq

/-- The processor state (struct `Processor`). -/
structure Processor where
  a : Nat
  b : Nat
  c : Nat
  d : Nat
  e : Nat
  h : Nat
  l : Nat
  sp : Nat
  pc : Nat
  conditions : ConditionBits
  halt : Bool
  interrupt_enabled : Bool
  memory : List Nat
deriving DecidableEq

/-- Rust `make_processor`: the all-zero default state with empty memory. -/
def make_processor : Processor :=
  { a := 0, b := 0, c := 0, d := 0, e := 0, h := 0, l := 0, sp := 0, pc := 0,
    conditions := ⟨false, false, false, false, false⟩,
    halt := false, interrupt_enabled := false, memory := [] }

/-- Rust `ConditionBits::set_flags`: unpack a PSW byte into the five flags. -/
def set_flags (byte : Nat) : ConditionBits :=
  { carry := byte &&& 0b1 != 0
    parity := byte &&& 0b100 != 0
    aux_carry := byte &&& 0b10000 != 0
    zero := byte &&& 0b1000000 != 0
    sign := byte &&& 0b10000000 != 0 }

/-- Rust `ConditionBits::convert_to_flags`: pack the five flags into a PSW byte. -/
def convert_to_flags (c : ConditionBits) : Nat :=
  (if c.carry then 0b1 else 0) |||
  (if c.parity then 0b100 else 0) |||
  (if c.aux_carry then 0b10000 else 0) |||
  (if c.zero then 0b1000000 else 0) |||
  (if c.sign then 0b10000000 else 0)

/-- Rust `initialize_memory`: extend the (empty) memory with the program bytes,
then `resize_with(0xffff)` — pad with zeros (or truncate) to 0xffff bytes. -/
def initialize_memory (program : List Nat) : List Nat :=
  ((program ++ List.replicate (0xffff - program.length) 0).take 0xffff)

/-- The loop body of `parity`: sum of the low `size` bits of `num`. -/
def hamming_weight (num : Nat) : Nat → Nat
  | 0 => 0
  | size + 1 => (num &&& 0x1) + hamming_weight (num >>> 1) size

/-- Rust `parity`: true when the number of set bits among the low `size` bits is even. -/
def parity (num : Nat) (size : Nat) : Bool :=
  hamming_weight num size % 2 == 0

/-- Rust `set_add_flags`: flags from a widened (u16) addition result. -/
def set_add_flags (answer : Nat) (c : ConditionBits) : ConditionBits :=
  { c with
    sign := answer &&& 0x80 != 0
    zero := answer &&& 0xff == 0
    parity := parity (answer &&& 0xff) 8
    carry := decide (answer > 0xff) }

/-- Rust `subtract_acc`: add 0x100 to the widened minuend, subtract, truncate to a
byte; set CY/S/Z/P.  Returns the byte result together with the new flags. -/
def subtract_acc (minuend subtrahend : Nat) (c : ConditionBits) : Nat × ConditionBits :=
  let min := minuend + 0x100
  let difference := min - subtrahend
  let ret_diff := difference &&& 0xff
  (ret_diff,
   { c with
     carry := decide (subtrahend > minuend)
     sign := ret_diff &&& 0x80 != 0
     zero := ret_diff == 0
     parity := parity ret_diff 8 })

/-- Rust `self.memory[addr]` as a read: `none` models the out-of-bounds panic. -/
def mem_read (s : Processor) (addr : Nat) : Option Nat :=
  s.memory[addr]?

/-- Rust `self.memory[addr] = v`: `none` models the out-of-bounds panic. -/
def mem_write (s : Processor) (addr v : Nat) : Option Processor :=
  if addr < s.memory.length then some { s with memory := s.memory.set addr v } else none

/-- Rust `get_mem_addr`: the HL pair as a 16-bit address. -/
def get_mem_addr (s : Processor) : Nat :=
  ((s.h <<< 8) ||| s.l)

/-- Rust `get_register` (read side): 3-bit code selects B,C,D,E,H,L,M,A;
code 6 dereferences memory at HL and can panic. -/
def get_register (s : Processor) (reg : Nat) : Option Nat :=
  match reg with
  | 0 => some s.b
  | 1 => some s.c
  | 2 => some s.d
  | 3 => some s.e
  | 4 => some s.h
  | 5 => some s.l
  | 6 => mem_read s (get_mem_addr s)
  | _ => some s.a

/-- Rust `set_register` (write through the `get_register` reference). -/
def set_register (s : Processor) (reg v : Nat) : Option Processor :=
  match reg with
  | 0 => some { s with b := v }
  | 1 => some { s with c := v }
  | 2 => some { s with d := v }
  | 3 => some { s with e := v }
  | 4 => some { s with h := v }
  | 5 => some { s with l := v }
  | 6 => mem_write s (get_mem_addr s) v
  | _ => some { s with a := v }

/-- Rust `get_register_pair_value`: 2-bit code selects BC, DE, HL, SP (default 0). -/
def get_register_pair_value (s : Processor) (reg_pair : Nat) : Nat :=
  match reg_pair with
  | 0 => (s.b <<< 8) ||| s.c
  | 1 => (s.d <<< 8) ||| s.e
  | 2 => (s.h <<< 8) ||| s.l
  | 3 => s.sp
  | _ => 0

/-- Rust `set_register_pair`: write high byte / low byte of `val` into the pair. -/
def set_register_pair (s : Processor) (reg_pair val : Nat) : Processor :=
  let high_byte := (val >>> 8) &&& 0xff
  let low_byte := val &&& 0xff
  match reg_pair with
  | 0 => { s with b := high_byte, c := low_byte }
  | 1 => { s with d := high_byte, e := low_byte }
  | 2 => { s with h := high_byte, l := low_byte }
  | 3 => { s with sp := (high_byte <<< 8) ||| low_byte }
  | _ => s

/-- Rust `push_to_stack`: `sp -= 1` (wrapping), then store the byte at the new sp. -/
def push_to_stack (s : Processor) (byte : Nat) : Option Processor :=
  let sp := (s.sp + 0xffff) % 0x10000
  mem_write { s with sp := sp } sp byte

/-- Rust `push_addr_to_stack`: split the word and push low byte, then high byte. -/
def push_addr_to_stack (s : Processor) (addr : Nat) : Option Processor := do
  let high_byte := (addr >>> 8) &&& 0xff
  let low_byte := addr &&& 0xff
  let s ← push_to_stack s low_byte
  push_to_stack s high_byte

/-- Rust `pop_from_stack`: read the byte at sp, then `sp += 1` (wrapping). -/
def pop_from_stack (s : Processor) : Option (Nat × Processor) := do
  let b ← mem_read s s.sp
  pure (b, { s with sp := (s.sp + 1) % 0x10000 })

/-- Rust `pop_addr_from_stack`: pop high byte, then low byte, and merge. -/
def pop_addr_from_stack (s : Processor) : Option (Nat × Processor) := do
  let (high_byte, s) ← pop_from_stack s
  let (low_byte, s) ← pop_from_stack s
  pure ((high_byte <<< 8) ||| low_byte, s)

/-- Rust `get_byte`: `pc += 1` (wrapping), then read the byte at `pc - 1`. -/
def get_byte (s : Processor) : Option (Nat × Processor) := do
  let pc := (s.pc + 1) % 0x10000
  let b ← mem_read s ((pc + 0xffff) % 0x10000)
  pure (b, { s with pc := pc })

/-- Rust `get_two_bytes`: fetch low byte then high byte and merge (little-endian). -/
def get_two_bytes (s : Processor) : Option (Nat × Processor) := do
  let (low_byte, s) ← get_byte s
  let (high_byte, s) ← get_byte s
  pure ((high_byte <<< 8) ||| low_byte, s)

/-- Rust `nop` (only prints). -/
def nop (s : Processor) : Processor := s

/-- Rust `unimplemented_instruction`: prints a diagnostic that reads `memory[pc]`
(the read itself can panic at pc = 0xffff). -/
def unimplemented_instruction (s : Processor) : Option Processor := do
  let _ ← mem_read s s.pc
  pure s

/-- Rust `lxi`: load register pair (bits 5..4 via `opcode >> 4`) with an immediate word. -/
def lxi (s : Processor) (opcode : Nat) : Option Processor := do
  let reg_pair := opcode >>> 4
  let (val, s) ← get_two_bytes s
  pure (set_register_pair s reg_pair val)

/-- Rust `lhld`: load L and H from the immediate address and its successor. -/
def lhld (s : Processor) : Option Processor := do
  let (addr, s) ← get_two_bytes s
  let lo ← mem_read s addr
  let hi ← mem_read s (addr + 1)
  pure { s with l := lo, h := hi }

/-- Rust `shld`: store L and H at the immediate address and its successor. -/
def shld (s : Processor) : Option Processor := do
  let (addr, s) ← get_two_bytes s
  let s ← mem_write s addr s.l
  mem_write s (addr + 1) s.h

/-- Rust `sta`: store A at the immediate address. -/
def sta (s : Processor) : Option Processor := do
  let (addr, s) ← get_two_bytes s
  mem_write s addr s.a

/-- Rust `lda`: load A from the immediate address. -/
def lda (s : Processor) : Option Processor := do
  let (addr, s) ← get_two_bytes s
  let v ← mem_read s addr
  pure { s with a := v }

/-- Rust `stax`: store A at the address in the selected register pair. -/
def stax (s : Processor) (opcode : Nat) : Option Processor :=
  let addr := get_register_pair_value s (opcode >>> 4)
  mem_write s addr s.a

/-- Rust `ldax`: load A from the address in the selected register pair. -/
def ldax (s : Processor) (opcode : Nat) : Option Processor := do
  let addr := get_register_pair_value s (opcode >>> 4)
  let v ← mem_read s addr
  pure { s with a := v }

/-- Rust `mvi`: move an immediate byte into the register selected by `opcode >> 3`. -/
def mvi (s : Processor) (opcode : Nat) : Option Processor := do
  let reg := opcode >>> 3
  let (byte, s) ← get_byte s
  set_register s reg byte

/-- Rust `mov`: copy source register (bits 2..0) into destination ((op << 2) >> 5). -/
def mov (s : Processor) (opcode : Nat) : Option Processor := do
  let reg_1 := ((opcode <<< 2) &&& 0xff) >>> 5
  let reg_2 := opcode &&& 0b111
  let val ← get_register s reg_2
  set_register s reg_1 val

/-- Rust `halt`: set the halt latch. -/
def halt (s : Processor) : Processor :=
  { s with halt := true }

/-- Rust `inr`: 8-bit increment of the register selected by `opcode >> 3`;
sets S/Z/P from the un-truncated widened value `cur_val`. -/
def inr (s : Processor) (opcode : Nat) : Option Processor := do
  let reg_code := opcode >>> 3
  let v ← get_register s reg_code
  let cur_val := v + 1
  let s ← set_register s reg_code (cur_val &&& 0x00ff)
  pure { s with conditions := { s.conditions with
    sign := cur_val >>> 7 != 0
    zero := cur_val == 0
    parity := parity cur_val 8 } }

/-- Rust `dcr`: 8-bit decrement (0 wraps to 0xff); flags as in `inr`. -/
def dcr (s : Processor) (opcode : Nat) : Option Processor := do
  let reg_code := opcode >>> 3
  let v ← get_register s reg_code
  let cur_val := if v > 0 then v - 1 else 0xff
  let s ← set_register s reg_code (cur_val &&& 0x00ff)
  pure { s with conditions := { s.conditions with
    sign := cur_val >>> 7 != 0
    zero := cur_val == 0
    parity := parity cur_val 8 } }

/-- Rust `inx`: 16-bit increment of pair `opcode >> 4` (u16 wrapping);
also sets S/Z/P from the 16-bit value. -/
def inx (s : Processor) (opcode : Nat) : Processor :=
  let reg_pair := opcode >>> 4
  let pair_val := (get_register_pair_value s reg_pair + 1) % 0x10000
  let s := set_register_pair s reg_pair pair_val
  { s with conditions := { s.conditions with
    sign := pair_val >>> 15 != 0
    zero := pair_val == 0
    parity := parity pair_val 16 } }

/-- Rust `dcx`: 16-bit decrement (u16 wrapping) of the pair selected by
`(opcode >> 4) & 0b1100`; also sets S/Z/P from the 16-bit value. -/
def dcx (s : Processor) (opcode : Nat) : Processor :=
  let reg_pair := (opcode >>> 4) &&& 0b1100
  let pair_val := (get_register_pair_value s reg_pair + 0xffff) % 0x10000
  let s := set_register_pair s reg_pair pair_val
  { s with conditions := { s.conditions with
    sign := pair_val >>> 15 != 0
    zero := pair_val == 0
    parity := parity pair_val 16 } }

/-- Rust `add`: A plus register (bits 2..0), widened; flags via `set_add_flags`;
`(answer << 8 >> 8) as u8` keeps the low byte. -/
def add (s : Processor) (opcode : Nat) : Option Processor := do
  let reg_num := opcode &&& 0b111
  let v ← get_register s reg_num
  let answer := s.a + v
  pure { s with conditions := set_add_flags answer s.conditions
               , a := ((answer <<< 8) % 0x10000) >>> 8 }

/-- Rust `adi`: A plus immediate. -/
def adi (s : Processor) : Option Processor := do
  let (immediate, s) ← get_byte s
  let answer := s.a + immediate
  pure { s with conditions := set_add_flags answer s.conditions
               , a := ((answer <<< 8) % 0x10000) >>> 8 }

/-- Rust `adc`: A plus register plus the carry bit. -/
def adc (s : Processor) (opcode : Nat) : Option Processor := do
  let reg_num := opcode &&& 0b111
  let v ← get_register s reg_num
  let answer := s.a + v + (if s.conditions.carry then 1 else 0)
  pure { s with conditions := set_add_flags answer s.conditions
               , a := answer &&& 0xff }

/-- Rust `aci`: A plus immediate plus the carry bit. -/
def aci (s : Processor) : Option Processor := do
  let (imm, s) ← get_byte s
  let answer := s.a + imm + (if s.conditions.carry then 1 else 0)
  pure { s with conditions := set_add_flags answer s.conditions
               , a := ((answer <<< 8) % 0x10000) >>> 8 }

/-- Rust `sub`: subtract register from A through `subtract_acc`. -/
def sub (s : Processor) (opcode : Nat) : Option Processor := do
  let reg_num := opcode &&& 0b111
  let minuend := s.a
  let subtrahend ← get_register s reg_num
  let (ret, c) := subtract_acc minuend subtrahend s.conditions
  pure { s with a := ret, conditions := c }

/-- Rust `sbb`: subtract register plus carry from A. -/
def sbb (s : Processor) (opcode : Nat) : Option Processor := do
  let reg_num := opcode &&& 0b111
  let minuend := s.a
  let v ← get_register s reg_num
  let subtrahend := v + (if s.conditions.carry then 1 else 0)
  let (ret, c) := subtract_acc minuend subtrahend s.conditions
  pure { s with a := ret, conditions := c }

/-- Rust `sui`: subtract immediate from A. -/
def sui (s : Processor) : Option Processor := do
  let (imm, s) ← get_byte s
  let minuend := s.a
  let (ret, c) := subtract_acc minuend imm s.conditions
  pure { s with a := ret, conditions := c }

/-- Rust `sbi`: subtract immediate plus carry from A. -/
def sbi (s : Processor) : Option Processor := do
  let (imm, s) ← get_byte s
  let minuend := s.a
  let subtrahend := imm + (if s.conditions.carry then 1 else 0)
  let (ret, c) := subtract_acc minuend subtrahend s.conditions
  pure { s with a := ret, conditions := c }

/-- Rust `cpi`: compare A with immediate — flags only, result discarded. -/
def cpi (s : Processor) : Option Processor := do
  let (imm, s) ← get_byte s
  let minuend := s.a
  let (_, c) := subtract_acc minuend imm s.conditions
  pure { s with conditions := c }

/-- Rust `cmp`: compare A with register — flags only, result discarded. -/
def cmp (s : Processor) (opcode : Nat) : Option Processor := do
  let reg_num := opcode &&& 0b111
  let minuend := s.a
  let subtrahend ← get_register s reg_num
  let (_, c) := subtract_acc minuend subtrahend s.conditions
  pure { s with conditions := c }

/-- Rust `dad`: 16-bit add of the selected pair into HL; CY from bit 16. -/
def dad (s : Processor) (opcode : Nat) : Processor :=
  let reg_pair := get_register_pair_value s (opcode >>> 4)
  let hl_val := get_register_pair_value s 2
  let sum := reg_pair + hl_val
  let s := { s with conditions := { s.conditions with
    carry := decide (sum &&& 0xffff0000 > 0) } }
  set_register_pair s 2 (sum &&& 0xffff)

/-- Rust `logical_op`: apply `f`, store in A, clear CY, set S/Z/P. -/
def logical_op (s : Processor) (left right : Nat) (f : Nat → Nat → Nat) : Processor :=
  let a := f left right
  { s with a := a, conditions := { s.conditions with
    carry := false
    sign := a &&& 0x80 != 0
    zero := a == 0
    parity := parity a 8 } }

/-- Rust `ana`: A AND register. -/
def ana (s : Processor) (opcode : Nat) : Option Processor := do
  let right ← get_register s (opcode &&& 0b111)
  pure (logical_op s s.a right (fun x y => x &&& y))

/-- Rust `xra`: A XOR register. -/
def xra (s : Processor) (opcode : Nat) : Option Processor := do
  let right ← get_register s (opcode &&& 0b111)
  pure (logical_op s s.a right (fun x y => x ^^^ y))

/-- Rust `ora`: A OR register. -/
def ora (s : Processor) (opcode : Nat) : Option Processor := do
  let right ← get_register s (opcode &&& 0b111)
  pure (logical_op s s.a right (fun x y => x ||| y))

/-- Rust `ani`: A AND immediate. -/
def ani (s : Processor) : Option Processor := do
  let (right, s) ← get_byte s
  pure (logical_op s s.a right (fun x y => x &&& y))

/-- Rust `ori`: A OR immediate. -/
def ori (s : Processor) : Option Processor := do
  let (right, s) ← get_byte s
  pure (logical_op s s.a right (fun x y => x ||| y))

/-- Rust `xri`: A XOR immediate. -/
def xri (s : Processor) : Option Processor := do
  let (right, s) ← get_byte s
  pure (logical_op s s.a right (fun x y => x ^^^ y))

/-- Rust `xchg`: swap DE and HL. -/
def xchg (s : Processor) : Processor :=
  let de := get_register_pair_value s 1
  let hl := get_register_pair_value s 2
  let s := set_register_pair s 1 hl
  set_register_pair s 2 de

/-- Rust `xthl`: swap HL with the word at the top of the stack. -/
def xthl (s : Processor) : Option Processor := do
  let hl := get_register_pair_value s 2
  let (mem, s) ← pop_addr_from_stack s
  let s := set_register_pair s 2 mem
  push_addr_to_stack s hl

/-- Rust `pchl`: set PC to the address in HL. -/
def pchl (s : Processor) : Processor :=
  { s with pc := (s.h <<< 8) ||| s.l }

/-- Rust `jmp`: read the little-endian target at PC and jump. -/
def jmp (s : Processor) : Option Processor := do
  let low_byte ← mem_read s s.pc
  let high_byte ← mem_read s (s.pc + 1)
  pure { s with pc := (high_byte <<< 8) ||| low_byte }

/-- Rust `match_conds`: test the condition encoded in bits 5..3. -/
def match_conds (s : Processor) (opcode : Nat) : Bool :=
  match (opcode >>> 3) &&& 0b00111 with
  | 0 => !s.conditions.zero
  | 1 => s.conditions.zero
  | 2 => !s.conditions.carry
  | 3 => s.conditions.carry
  | 4 => !s.conditions.parity
  | 5 => s.conditions.parity
  | 6 => !s.conditions.sign
  | 7 => s.conditions.sign
  | _ => false

/-- Rust `call`: push `pc + 2` (u16 wrapping) and jump to the immediate target. -/
def call (s : Processor) : Option Processor := do
  let ret_addr := (s.pc + 2) % 0x10000
  let s ← push_addr_to_stack s ret_addr
  jmp s

/-- Rust `ret`: pop the return address into PC. -/
def ret (s : Processor) : Option Processor := do
  let (addr, s) ← pop_addr_from_stack s
  pure { s with pc := addr }

/-- Rust `pop`: pop two bytes; `reg_pair = opcode >> 4` (unmasked); a pair code
below 3 receives the merged word, otherwise A and the flags receive them. -/
def pop (s : Processor) (opcode : Nat) : Option Processor := do
  let reg_pair := opcode >>> 4
  let (low_byte, s) ← pop_from_stack s
  let (high_byte, s) ← pop_from_stack s
  if reg_pair < 3 then
    pure (set_register_pair s reg_pair ((high_byte <<< 8) ||| low_byte))
  else
    pure { s with a := high_byte, conditions := set_flags low_byte }

/-- Rust `push`: `reg_pair = (opcode >> 4) & 0b11`; a pair code below 3 pushes the
pair value, otherwise A then the packed flags byte are pushed. -/
def push (s : Processor) (opcode : Nat) : Option Processor := do
  let reg_pair := (opcode >>> 4) &&& 0b11
  if reg_pair < 3 then
    push_addr_to_stack s (get_register_pair_value s reg_pair)
  else do
    let s ← push_to_stack s s.a
    push_to_stack s (convert_to_flags s.conditions)

/-- Rust `rotate_acc`: the four rotate instructions, selected by `opcode >> 3`.
`low_bit` is `a & 0xfe` exactly as in the source. -/
def rotate_acc (s : Processor) (opcode : Nat) : Processor :=
  let high_bit := s.a >>> 7
  let low_bit := s.a &&& 0xfe
  let instr := opcode >>> 3
  let acc := s.a
  match instr with
  | 0 =>
    { s with conditions := { s.conditions with carry := high_bit == 1 }
           , a := ((acc <<< 1) &&& 0xff) + high_bit }
  | 1 =>
    { s with conditions := { s.conditions with carry := low_bit == 1 }
           , a := (acc >>> 1) + ((low_bit <<< 7) &&& 0xff) }
  | 2 =>
    let res := ((acc <<< 1) &&& 0xff) + (if s.conditions.carry then 1 else 0)
    { s with conditions := { s.conditions with carry := high_bit == 1 }
           , a := res }
  | _ =>
    let res := (acc >>> 1) + (((if s.conditions.carry then 1 else 0) <<< 7) &&& 0xff)
    { s with conditions := { s.conditions with carry := low_bit == 1 }
           , a := res }

/-- The dispatch `match` of `run_one_command`, arm by arm in source order. -/
def execute (s : Processor) (opcode : Nat) : Option Processor :=
  if opcode == 0x00 then pure (nop s)
  else if opcode == 0x01 || opcode == 0x11 || opcode == 0x21 || opcode == 0x31 then lxi s opcode
  else if opcode == 0x02 || opcode == 0x12 then stax s opcode
  else if opcode == 0x03 || opcode == 0x13 || opcode == 0x23 || opcode == 0x33 then pure (inx s opcode)
  else if opcode == 0x04 || opcode == 0x0c || opcode == 0x14 || opcode == 0x1c
       || opcode == 0x24 || opcode == 0x2c || opcode == 0x34 || opcode == 0x3c then inr s opcode
  else if opcode == 0x05 || opcode == 0x0d || opcode == 0x15 || opcode == 0x1d
       || opcode == 0x25 || opcode == 0x2d || opcode == 0x35 || opcode == 0x3d then dcr s opcode
  else if opcode == 0x06 || opcode == 0x0e || opcode == 0x16 || opcode == 0x1e
       || opcode == 0x26 || opcode == 0x2e || opcode == 0x36 || opcode == 0x3e then mvi s opcode
  else if opcode == 0x07 || opcode == 0x0f || opcode == 0x17 || opcode == 0x1f then pure (rotate_acc s opcode)
  else if opcode == 0x09 || opcode == 0x19 || opcode == 0x29 || opcode == 0x39 then pure (dad s opcode)
  else if opcode == 0x0a || opcode == 0x1a then ldax s opcode
  else if opcode == 0x0b || opcode == 0x1b || opcode == 0x2b || opcode == 0x3b then pure (dcx s opcode)
  else if opcode == 0x22 then shld s
  else if opcode == 0x27 then pure (nop s)
  else if opcode == 0x2a then lhld s
  else if opcode == 0x2f then pure { s with a := s.a ^^^ 0xff }
  else if opcode == 0x32 then sta s
  else if opcode == 0x37 then pure { s with conditions := { s.conditions with carry := true } }
  else if opcode == 0x3a then lda s
  else if opcode == 0x3f then pure { s with conditions := { s.conditions with carry := !s.conditions.carry } }
  else if (decide (0x40 ≤ opcode) && decide (opcode ≤ 0x75))
       || (decide (0x77 ≤ opcode) && decide (opcode ≤ 0x7f)) then mov s opcode
  else if opcode == 0x76 then pure (halt s)
  else if decide (0x80 ≤ opcode) && decide (opcode ≤ 0x87) then add s opcode
  else if decide (0x88 ≤ opcode) && decide (opcode ≤ 0x8f) then adc s opcode
  else if decide (0x90 ≤ opcode) && decide (opcode ≤ 0x97) then sub s opcode
  else if decide (0x98 ≤ opcode) && decide (opcode ≤ 0x9f) then sbb s opcode
  else if decide (0xa0 ≤ opcode) && decide (opcode ≤ 0xa7) then ana s opcode
  else if decide (0xa8 ≤ opcode) && decide (opcode ≤ 0xaf) then xra s opcode
  else if decide (0xb0 ≤ opcode) && decide (opcode ≤ 0xb7) then ora s opcode
  else if decide (0xb8 ≤ opcode) && decide (opcode ≤ 0xbf) then cmp s opcode
  else if opcode == 0xc2 || opcode == 0xca || opcode == 0xd2 || opcode == 0xda
       || opcode == 0xe2 || opcode == 0xea || opcode == 0xf2 || opcode == 0xfa then
    if match_conds s opcode then jmp s else pure { s with pc := (s.pc + 2) % 0x10000 }
  else if opcode == 0xc3 then jmp s
  else if opcode == 0xc4 || opcode == 0xcc || opcode == 0xd4 || opcode == 0xdc
       || opcode == 0xe4 || opcode == 0xec || opcode == 0xf4 || opcode == 0xfc then
    if match_conds s opcode then call s else pure { s with pc := (s.pc + 2) % 0x10000 }
  else if opcode == 0xc0 || opcode == 0xc8 || opcode == 0xd0 || opcode == 0xd8
       || opcode == 0xe0 || opcode == 0xe8 || opcode == 0xf0 || opcode == 0xf8 then
    if match_conds s opcode then ret s else pure s
  else if opcode == 0xc1 || opcode == 0xd1 || opcode == 0xe1 || opcode == 0xf1 then pop s opcode
  else if opcode == 0xc5 || opcode == 0xd5 || opcode == 0xe5 || opcode == 0xf5 then push s opcode
  else if opcode == 0xc6 then adi s
  else if opcode == 0xc7 || opcode == 0xcf || opcode == 0xd7 || opcode == 0xdf
       || opcode == 0xe7 || opcode == 0xef || opcode == 0xf7 || opcode == 0xff then
    unimplemented_instruction s
  else if opcode == 0xc9 then ret s
  else if opcode == 0xcd then call s
  else if opcode == 0xce then aci s
  else if opcode == 0xd3 then unimplemented_instruction s
  else if opcode == 0xd6 then sui s
  else if opcode == 0xdb then unimplemented_instruction s
  else if opcode == 0xde then sbi s
  else if opcode == 0xe3 then xthl s
  else if opcode == 0xe6 then ani s
  else if opcode == 0xe9 then pure (pchl s)
  else if opcode == 0xeb then pure (xchg s)
  else if opcode == 0xee then xri s
  else if opcode == 0xf3 then pure { s with interrupt_enabled := false }
  else if opcode == 0xf6 then ori s
  else if opcode == 0xf9 then pure { s with sp := get_register_pair_value s 2 }
  else if opcode == 0xfb then pure { s with interrupt_enabled := true }
  else if opcode == 0xfe then cpi s
  else unimplemented_instruction s

/-- Rust `run_one_command`: fetch the opcode byte, then dispatch. -/
def run_one_command (s : Processor) : Option Processor := do
  let (opcode, s) ← get_byte s
  execute s opcode

/-! ## Helper lemmas -/

/-- Unpacking a packed flags byte restores the five flags. -/
theorem set_flags_convert (c : ConditionBits) : set_flags (convert_to_flags c) = c := by
  rcases c with ⟨cy, ac, sg, ze, pa⟩
  cases cy <;> cases ac <;> cases sg <;> cases ze <;> cases pa <;> decide

/-- A successful fetch: when the program counter is below 0xffff, `get_byte`
reads `memory[pc]` and advances the program counter by one. -/
theorem get_byte_spec (s : Processor) (v : Nat) (hpc : s.pc < 0xffff)
    (hv : s.memory[s.pc]? = some v) :
    get_byte s = some (v, { s with pc := s.pc + 1 }) := by
  have h1 : ((s.pc + 1) % 0x10000 + 0xffff) % 0x10000 = s.pc := by omega
  have h2 : (s.pc + 1) % 0x10000 = s.pc + 1 := by omega
  have h3 : (s.pc + 1 + 0xffff) % 0x10000 = s.pc := by omega
  simp only [get_byte, mem_read, h1, h2, h3, hv, Option.bind_eq_bind, Option.some_bind]
  rfl

/-- A successful push: with 1 ≤ sp ≤ 0xffff and sp − 1 in bounds,
`push_to_stack` decrements sp and stores the byte at the new sp. -/
theorem push_to_stack_spec (s : Processor) (byte : Nat) (h1 : 1 ≤ s.sp)
    (h2 : s.sp ≤ 0xffff) (h3 : s.sp - 1 < s.memory.length) :
    push_to_stack s byte =
      some { s with sp := s.sp - 1, memory := s.memory.set (s.sp - 1) byte } := by
  have hsp : (s.sp + 0xffff) % 0x10000 = s.sp - 1 := by omega
  simp only [push_to_stack, mem_write, hsp]
  rw [if_pos h3]

/-- A successful pop: reads the byte at sp and increments sp. -/
theorem pop_from_stack_spec (s : Processor) (v : Nat) (hv : s.memory[s.sp]? = some v)
    (h2 : s.sp + 1 ≤ 0xffff) :
    pop_from_stack s = some (v, { s with sp := s.sp + 1 }) := by
  have hsp : (s.sp + 1) % 0x10000 = s.sp + 1 := by omega
  simp only [pop_from_stack, mem_read, hv, Option.bind_eq_bind, Option.some_bind, hsp]
  rfl

/-- A successful 16-bit push on a full-size memory: the low byte lands at
sp − 1, the high byte at sp − 2, and sp drops by two. -/
theorem push_addr_to_stack_spec (s : Processor) (addr : Nat) (h1 : 2 ≤ s.sp)
    (h2 : s.sp ≤ 0xffff) (hlen : s.memory.length = 0xffff) :
    push_addr_to_stack s addr =
      some { s with sp := s.sp - 2,
                    memory := (s.memory.set (s.sp - 1) (addr &&& 0xff)).set
                                (s.sp - 2) ((addr >>> 8) &&& 0xff) } := by
  have e1 := push_to_stack_spec s (addr &&& 0xff) (by omega) h2 (by omega)
  have e2 := push_to_stack_spec
    { s with sp := s.sp - 1, memory := s.memory.set (s.sp - 1) (addr &&& 0xff) }
    ((addr >>> 8) &&& 0xff) (by simp; omega) (by simp; omega) (by simp [hlen]; omega)
  simp only [push_addr_to_stack, e1, Option.bind_eq_bind, Option.some_bind]
  rw [e2]
  have hsub : s.sp - 1 - 1 = s.sp - 2 := by omega
  simp [hsub]

/-- A successful `pop` for an opcode whose top nibble is at least 3 (which is
the case for all four POP opcodes, since the pair code is not masked): the
byte at sp goes to the flags, the byte at sp + 1 goes to A, sp rises by 2. -/
theorem pop_psw_spec (s : Processor) (opcode vlo vhi : Nat) (hop : 3 ≤ opcode >>> 4)
    (hlo : s.memory[s.sp]? = some vlo) (hhi : s.memory[s.sp + 1]? = some vhi)
    (hsp : s.sp + 2 ≤ 0xffff) :
    pop s opcode = some { s with sp := s.sp + 2, a := vhi, conditions := set_flags vlo } := by
  have e1 := pop_from_stack_spec s vlo hlo (by omega)
  have e2 := pop_from_stack_spec { s with sp := s.sp + 1 } vhi (by simpa using hhi)
    (by dsimp only; omega)
  simp only [pop, e1, e2, Option.bind_eq_bind, Option.some_bind]
  rw [if_neg (Nat.not_lt.mpr hop)]
  rfl

/-! ## C1 : PUSH rp then POP rp -/

/-- C1: for each pair BC, DE, HL, executing PUSH rp then POP rp from any
state with stack room leaves the two registers of the pair (indeed all six
of B,C,D,E,H,L) and SP at their prior values.  (This holds degenerately:
`pop` computes `opcode >> 4` without masking, which is ≥ 3 for every POP
opcode, so POP never writes the pair registers, while PUSH and POP still
move SP down and up by two.) -/
theorem c1_push_pop_roundtrip (s : Processor) (op_push op_pop : Nat)
    (hops : (op_push = 0xc5 ∧ op_pop = 0xc1) ∨ (op_push = 0xd5 ∧ op_pop = 0xd1) ∨
            (op_push = 0xe5 ∧ op_pop = 0xe1))
    (hlen : s.memory.length = 0xffff) (h1 : 2 ≤ s.sp) (h2 : s.sp ≤ 0xffff) :
    ∃ s1 s2, push s op_push = some s1 ∧ pop s1 op_pop = some s2 ∧
      s2.b = s.b ∧ s2.c = s.c ∧ s2.d = s.d ∧ s2.e = s.e ∧ s2.h = s.h ∧ s2.l = s.l ∧
      s2.sp = s.sp := by
  have main : ∀ rp : Nat, rp < 3 → ∀ op_pop' : Nat, 3 ≤ op_pop' >>> 4 →
      ∃ s1 s2, push_addr_to_stack s (get_register_pair_value s rp) = some s1 ∧
        pop s1 op_pop' = some s2 ∧
        s2.b = s.b ∧ s2.c = s.c ∧ s2.d = s.d ∧ s2.e = s.e ∧ s2.h = s.h ∧ s2.l = s.l ∧
        s2.sp = s.sp := by
    intro rp _ op_pop' hop'
    set addr := get_register_pair_value s rp with haddr
    have e1 := push_addr_to_stack_spec s addr h1 h2 hlen
    set s1 : Processor :=
      { s with sp := s.sp - 2,
               memory := (s.memory.set (s.sp - 1) (addr &&& 0xff)).set
                           (s.sp - 2) ((addr >>> 8) &&& 0xff) } with hs1
    have hmlen : s1.memory.length = 0xffff := by simp [hs1, hlen]
    have hlo : s1.memory[s1.sp]? = some ((addr >>> 8) &&& 0xff) := by
      simp only [hs1]
      exact List.getElem?_set_self (by simp [hlen]; omega)
    have hhi : s1.memory[s1.sp + 1]? = some (addr &&& 0xff) := by
      simp only [hs1]
      have hne : s.sp - 2 ≠ s.sp - 2 + 1 := by omega
      rw [List.getElem?_set_ne hne]
      have hidx : s.sp - 2 + 1 = s.sp - 1 := by omega
      rw [hidx]
      exact List.getElem?_set_self (by omega)
    have e2 := pop_psw_spec s1 op_pop' ((addr >>> 8) &&& 0xff) (addr &&& 0xff) hop' hlo hhi
      (by simp [hs1]; omega)
    refine ⟨s1, _, e1, e2, ?_, ?_, ?_, ?_, ?_, ?_, ?_⟩ <;> simp [hs1]
    omega
  rcases hops with ⟨hpu, hpo⟩ | ⟨hpu, hpo⟩ | ⟨hpu, hpo⟩ <;> subst hpu <;> subst hpo
  · have := main 0 (by omega) 0xc1 (by decide)
    simpa [push] using this
  · have := main 1 (by omega) 0xd1 (by decide)
    simpa [push] using this
  · have := main 2 (by omega) 0xe1 (by decide)
    simpa [push] using this

/-- Concrete state for the C1 witness: BC = 0x1234, SP = 0x100, zeroed
full-size memory. -/
def c1state : Processor :=
  { make_processor with
    b := 0x12
    c := 0x34
    sp := 0x100
    memory := List.replicate 0xffff 0 }

/-- Witness for C1 at a concrete state (PUSH B / POP B). -/
theorem c1_push_pop_roundtrip_witness :
    ∃ s1 s2, push c1state 0xc5 = some s1 ∧ pop s1 0xc1 = some s2 ∧
      s2.b = c1state.b ∧ s2.c = c1state.c ∧ s2.d = c1state.d ∧ s2.e = c1state.e ∧
      s2.h = c1state.h ∧ s2.l = c1state.l ∧ s2.sp = c1state.sp :=
  c1_push_pop_roundtrip c1state 0xc5 0xc1 (Or.inl ⟨rfl, rfl⟩)
    (by rw [show c1state.memory = List.replicate 0xffff 0 from rfl]
        exact List.length_replicate 0xffff 0)
    (by decide) (by decide)

/-! ## C2 : stack discipline -/

/-- State for the C2 counterexample: BC = 0x1234, SP = 0x10, 32 zero bytes. -/
def c2state : Processor :=
  { make_processor with
    b := 0x12
    c := 0x34
    sp := 0x10
    memory := List.replicate 0x20 0 }

/-- Result of `PUSH B` from `c2state`. -/
def c2after : Processor :=
  { c2state with
    sp := 0x0e
    memory := (c2state.memory.set 0xf 0x34).set 0xe 0x12 }

/-- C2 (counterexample): the claim says PUSH writes the HIGH byte at SP−1 and
the LOW byte at SP−2.  Pushing BC = 0x1234 with SP = 0x10 actually stores
0x34 (the low byte) at 0x0F = SP−1 and 0x12 (the high byte) at 0x0E = SP−2. -/
theorem c2_counterexample :
    push c2state 0xc5 = some c2after ∧
    c2after.memory[0xf]? = some 0x34 ∧ c2after.memory[0xf]? ≠ some 0x12 ∧
    c2after.memory[0xe]? = some 0x12 ∧ c2after.sp = 0xe := by
  decide

/-- C2 (amended): PUSH writes the LOW byte at SP−1 and the HIGH byte at SP−2,
then SP ← SP−2; POP (all four POP opcodes) reads its low byte at SP and its
high byte at SP+1, then SP ← SP+2 (the byte at SP feeds the flags, the byte
at SP+1 feeds A, because the unmasked pair code sends every POP to the PSW
branch). -/
theorem c2_stack_discipline :
    (∀ (s : Processor) (addr : Nat), 2 ≤ s.sp → s.sp ≤ 0xffff →
      s.memory.length = 0xffff →
      push_addr_to_stack s addr =
        some { s with sp := s.sp - 2,
                      memory := (s.memory.set (s.sp - 1) (addr &&& 0xff)).set
                                  (s.sp - 2) ((addr >>> 8) &&& 0xff) }) ∧
    (∀ (s : Processor) (opcode vlo vhi : Nat),
      (opcode = 0xc1 ∨ opcode = 0xd1 ∨ opcode = 0xe1 ∨ opcode = 0xf1) →
      s.memory[s.sp]? = some vlo → s.memory[s.sp + 1]? = some vhi →
      s.sp + 2 ≤ 0xffff →
      pop s opcode = some { s with sp := s.sp + 2, a := vhi, conditions := set_flags vlo }) := by
  constructor
  · intro s addr h1 h2 hlen
    exact push_addr_to_stack_spec s addr h1 h2 hlen
  · intro s opcode vlo vhi hop hlo hhi hsp
    refine pop_psw_spec s opcode vlo vhi ?_ hlo hhi hsp
    rcases hop with h | h | h | h <;> subst h <;> decide

/-- Concrete state for the C2 witness, part 1 (full-size memory). -/
def c2wstate : Processor :=
  { make_processor with
    sp := 0x100
    memory := List.replicate 0xffff 0 }

/-- Concrete state for the C2 witness, part 2 (POP from a tiny memory). -/
def c2pstate : Processor :=
  { make_processor with memory := [7, 9, 0] }

/-- Witness for C2 (amended) at concrete states. -/
theorem c2_stack_discipline_witness :
    push_addr_to_stack c2wstate 0x1234 =
      some { c2wstate with
             sp := c2wstate.sp - 2
             memory := (c2wstate.memory.set (c2wstate.sp - 1) (0x1234 &&& 0xff)).set
                         (c2wstate.sp - 2) ((0x1234 >>> 8) &&& 0xff) } ∧
    pop c2pstate 0xc1 =
      some { c2pstate with sp := c2pstate.sp + 2, a := 9, conditions := set_flags 7 } :=
  ⟨c2_stack_discipline.1 c2wstate 0x1234 (by decide) (by decide)
     (by rw [show c2wstate.memory = List.replicate 0xffff 0 from rfl]
         exact List.length_replicate 0xffff 0),
   c2_stack_discipline.2 c2pstate 0xc1 7 9 (Or.inl rfl) (by decide) (by decide) (by decide)⟩

/-! ## C8 : PUSH PSW / POP PSW and the PSW byte layout -/

/-- State for the C8 counterexample: A = 0xAB, all flags clear, SP = 0x10. -/
def c8state : Processor :=
  { make_processor with
    a := 0xab
    sp := 0x10
    memory := List.replicate 0x20 0 }

/-- Result of `PUSH PSW` from `c8state`. -/
def c8after : Processor :=
  { c8state with
    sp := 0x0e
    memory := (c8state.memory.set 0xf 0xab).set 0xe 0 }

/-- C8 (counterexample): the claim says the PSW byte written by PUSH PSW has
bit 1 fixed at 1.  With all five flags clear the emulator writes the flags
byte 0x00 at SP−2, and bit 1 of 0x00 is 0, not 1. -/
theorem c8_counterexample :
    push c8state 0xf5 = some c8after ∧
    c8after.memory[0xe]? = some (convert_to_flags c8state.conditions) ∧
    convert_to_flags c8state.conditions = 0 ∧
    (convert_to_flags c8state.conditions).testBit 1 = false := by
  decide

/-- C8 (amended): PUSH PSW then POP PSW restores A, all five flags and SP,
and the flags byte written at SP−2 packs the flags in the layout
`S Z 0 AC 0 P 0 CY` (bit 7 down to bit 0) — bits 1, 3 and 5 are fixed at
0, 0, 0 (bit 1 is 0, not 1 as on a real 8080). -/
theorem c8_psw_roundtrip (s : Processor) (hlen : s.memory.length = 0xffff)
    (h1 : 2 ≤ s.sp) (h2 : s.sp ≤ 0xffff) :
    (∃ s1 s2, push s 0xf5 = some s1 ∧ pop s1 0xf1 = some s2 ∧
      s2.a = s.a ∧ s2.conditions = s.conditions ∧ s2.sp = s.sp ∧
      s1.memory[s.sp - 2]? = some (convert_to_flags s.conditions) ∧
      s1.memory[s.sp - 1]? = some s.a) ∧
    (∀ c : ConditionBits,
      (convert_to_flags c).testBit 7 = c.sign ∧
      (convert_to_flags c).testBit 6 = c.zero ∧
      (convert_to_flags c).testBit 5 = false ∧
      (convert_to_flags c).testBit 4 = c.aux_carry ∧
      (convert_to_flags c).testBit 3 = false ∧
      (convert_to_flags c).testBit 2 = c.parity ∧
      (convert_to_flags c).testBit 1 = false ∧
      (convert_to_flags c).testBit 0 = c.carry) := by
  constructor
  · have e1 := push_to_stack_spec s s.a (by omega) h2 (by omega)
    set s1' : Processor :=
      { s with sp := s.sp - 1, memory := s.memory.set (s.sp - 1) s.a } with hs1'
    have e2 := push_to_stack_spec s1' (convert_to_flags s1'.conditions)
      (by dsimp only; omega) (by dsimp only; omega)
      (by dsimp only; rw [List.length_set, hlen]; omega)
    have hpush : push s 0xf5 =
        some { s with sp := s.sp - 2,
                      memory := (s.memory.set (s.sp - 1) s.a).set
                                  (s.sp - 2) (convert_to_flags s.conditions) } := by
      simp only [push, e1, Option.bind_eq_bind, Option.some_bind]
      rw [if_neg (by decide)]
      rw [e2]
      have hsub : s.sp - 1 - 1 = s.sp - 2 := by omega
      simp [hs1', hsub]
    set s1 : Processor :=
      { s with sp := s.sp - 2,
               memory := (s.memory.set (s.sp - 1) s.a).set (s.sp - 2) (convert_to_flags s.conditions) } with hs1
    have hlo : s1.memory[s1.sp]? = some (convert_to_flags s.conditions) := by
      simp only [hs1]
      exact List.getElem?_set_self (by simp [hlen]; omega)
    have hhi : s1.memory[s1.sp + 1]? = some s.a := by
      simp only [hs1]
      have hne : s.sp - 2 ≠ s.sp - 2 + 1 := by omega
      rw [List.getElem?_set_ne hne]
      have hidx : s.sp - 2 + 1 = s.sp - 1 := by omega
      rw [hidx]
      exact List.getElem?_set_self (by omega)
    have e3 := pop_psw_spec s1 0xf1 (convert_to_flags s.conditions) s.a (by decide)
      hlo hhi (by dsimp only; omega)
    refine ⟨s1, _, hpush, e3, by simp, ?_, ?_, ?_, ?_⟩
    · simp [set_flags_convert]
    · simp only [hs1]
      omega
    · exact hlo
    · have hidx : s.sp - 1 = s.sp - 2 + 1 := by omega
      rw [hidx]
      exact hhi
  · intro c
    rcases c with ⟨cy, ac, sg, ze, pa⟩
    cases cy <;> cases ac <;> cases sg <;> cases ze <;> cases pa <;> decide

/-- Concrete state for the C8 witness. -/
def c8wstate : Processor :=
  { make_processor with
    a := 0x77
    sp := 0x200
    conditions := ⟨true, false, true, false, true⟩
    memory := List.replicate 0xffff 0 }

/-- Witness for C8 (amended) at a concrete state. -/
theorem c8_psw_roundtrip_witness :
    ∃ s1 s2, push c8wstate 0xf5 = some s1 ∧ pop s1 0xf1 = some s2 ∧
      s2.a = c8wstate.a ∧ s2.conditions = c8wstate.conditions ∧ s2.sp = c8wstate.sp ∧
      s1.memory[c8wstate.sp - 2]? = some (convert_to_flags c8wstate.conditions) ∧
      s1.memory[c8wstate.sp - 1]? = some c8wstate.a :=
  (c8_psw_roundtrip c8wstate
    (by rw [show c8wstate.memory = List.replicate 0xffff 0 from rfl]
        exact List.length_replicate 0xffff 0)
    (by decide) (by decide)).1

/-! ## C7 : auxiliary carry after ADD/ADC/ADI -/

/-- The auxiliary-carry formula of the claim, written from the spec for
comparison with the code: AC = carry out of bit 3 of `(a&0xF)+(b&0xF)+cin`. -/
def aux_carry_formula (a b cin : Nat) : Bool :=
  decide (0xf < (a &&& 0xf) + (b &&& 0xf) + cin)

/-- State for the C7 counterexample: A = 0x0F, B = 0x01, AC clear. -/
def c7state : Processor := { make_processor with a := 0x0f, b := 0x01 }

/-- Result of `ADD B` from `c7state`: A = 0x10, all flags still clear. -/
def c7after : Processor := { make_processor with a := 0x10, b := 0x01 }

/-- C7 (counterexample): adding 0x0F + 0x01 carries out of bit 3, so the
claim requires AC = 1, but the emulator's `set_add_flags` never writes
`aux_carry` and it stays 0. -/
theorem c7_counterexample :
    add c7state 0x80 = some c7after ∧
    c7after.conditions.aux_carry = false ∧
    aux_carry_formula c7state.a c7state.b 0 = true := by
  decide

/-- Rust `get_byte` leaves the flags unchanged. -/
theorem get_byte_conditions (s : Processor) (p : Nat × Processor)
    (hgb : get_byte s = some p) : p.2.conditions = s.conditions := by
  simp only [get_byte, mem_read, Option.bind_eq_bind] at hgb
  rcases hm : s.memory[((s.pc + 1) % 0x10000 + 0xffff) % 0x10000]? with _ | v
  · rw [hm] at hgb
    simp at hgb
  · rw [hm] at hgb
    simp only [Option.some_bind, Option.pure_def, Option.some.injEq] at hgb
    subst hgb
    rfl

/-- C7 (amended): ADD r, ADC r and ADI d8 leave the AC flag unchanged —
`set_add_flags` never writes `aux_carry` (it is only written by POP PSW). -/
theorem c7_add_aux_carry_unchanged (opcode : Nat) (s s' : Processor) :
    (add s opcode = some s' → s'.conditions.aux_carry = s.conditions.aux_carry) ∧
    (adc s opcode = some s' → s'.conditions.aux_carry = s.conditions.aux_carry) ∧
    (adi s = some s' → s'.conditions.aux_carry = s.conditions.aux_carry) := by
  refine ⟨?_, ?_, ?_⟩
  · intro hs
    simp only [add, Option.bind_eq_bind] at hs
    rcases hreg : get_register s (opcode &&& 0b111) with _ | v
    · rw [hreg] at hs
      simp at hs
    · rw [hreg] at hs
      simp only [Option.some_bind, Option.pure_def, Option.some.injEq] at hs
      subst hs
      rfl
  · intro hs
    simp only [adc, Option.bind_eq_bind] at hs
    rcases hreg : get_register s (opcode &&& 0b111) with _ | v
    · rw [hreg] at hs
      simp at hs
    · rw [hreg] at hs
      simp only [Option.some_bind, Option.pure_def, Option.some.injEq] at hs
      subst hs
      rfl
  · intro hs
    simp only [adi, Option.bind_eq_bind] at hs
    rcases hgb : get_byte s with _ | p
    · rw [hgb] at hs
      simp at hs
    · obtain ⟨imm, s2⟩ := p
      rw [hgb] at hs
      simp only [Option.some_bind, Option.pure_def, Option.some.injEq] at hs
      subst hs
      have hc : s2.conditions = s.conditions := get_byte_conditions s (imm, s2) hgb
      simp [set_add_flags, hc]

/-- Witness for C7 (amended): ADD B from `c7state` leaves AC unchanged. -/
theorem c7_add_aux_carry_unchanged_witness :
    c7after.conditions.aux_carry = c7state.conditions.aux_carry :=
  (c7_add_aux_carry_unchanged 0x80 c7state c7after).1 (by decide)

/-! ## C9 : CMP agrees with SUB on the flags -/

/-- C9: whenever `SUB r` succeeds, `CMP r` (same register field) succeeds and
returns the very same state except that A keeps its old value — so the five
flags after CMP are exactly the flags after SUB, and A is unchanged. -/
theorem c9_cmp_eq_sub (opcode : Nat) (s s' : Processor)
    (hsub : sub s opcode = some s') :
    cmp s opcode = some { s' with a := s.a } := by
  simp only [sub, Option.bind_eq_bind] at hsub
  rcases hreg : get_register s (opcode &&& 0b111) with _ | v
  · rw [hreg] at hsub
    simp at hsub
  · rw [hreg] at hsub
    simp only [Option.some_bind, Option.pure_def, Option.some.injEq] at hsub
    subst hsub
    simp only [cmp, Option.bind_eq_bind, hreg, Option.some_bind]
    rfl

/-- State for the C9 witness: A = 5, B = 3. -/
def c9state : Processor := { make_processor with a := 5, b := 3 }

/-- Result of `SUB B` from `c9state`: A = 2, all flags clear. -/
def c9after : Processor := { make_processor with a := 2, b := 3 }

/-- Witness for C9 at a concrete state (`SUB B` / `CMP B`, opcodes 0x90/0xB8
share the register field 0). -/
theorem c9_cmp_eq_sub_witness :
    cmp c9state 0x90 = some { c9after with a := c9state.a } :=
  c9_cmp_eq_sub 0x90 c9state c9after (by decide)

/-! ## C4 : DCX register-pair selection and flags -/

/-- Initial state for the C4 evidence: BC = 0x1234, DE = 0x0005, flags clear. -/
def c4state : Processor :=
  { make_processor with b := 0x12, c := 0x34, d := 0x00, e := 0x05 }

/-- C4 (code_bug evidence): the claim says opcode 0x1B (DCX D) decrements DE
and updates no flags.  The emulator masks the pair code with `& 0b1100`,
which is always 0, so DCX 0x1B decrements BC instead (C becomes 0x33 while
E stays 5) and it also rewrites the parity flag. -/
theorem c4_dcx_code_bug :
    (dcx c4state 0x1b).e = 0x05 ∧ (dcx c4state 0x1b).e ≠ 0x04 ∧
    (dcx c4state 0x1b).c = 0x33 ∧
    (dcx c4state 0x1b).conditions.parity ≠ c4state.conditions.parity := by
  decide

/-! ## C5 : RRC rotate -/

/-- Initial state for the C5 evidence: A = 1. -/
def c5state : Processor := { make_processor with a := 0x01 }

/-- C5 (code_bug evidence): the claim says RRC (0x0F) sets
`A ← (A>>1)|(A<<7)` and `CY ← old bit 0`.  With A = 1 those formulas give
A = 0x80 and CY = 1, but the emulator computes `low_bit = A & 0xfe` (instead
of `A & 0x1`), so it produces A = 0 and CY = 0. -/
theorem c5_rrc_code_bug :
    (rotate_acc c5state 0x0f).a = 0 ∧
    (rotate_acc c5state 0x0f).conditions.carry = false ∧
    ((c5state.a >>> 1) ||| ((c5state.a <<< 7) &&& 0xff)) = 0x80 ∧
    c5state.a &&& 0x1 = 1 := by
  decide

/-! ## C6 : INR flags -/

/-- Initial state for the C6 evidence: A = 0xFF. -/
def c6state : Processor := { make_processor with a := 0xff }

/-- Expected result of `INR A` from `c6state` in the emulator: A wraps to 0,
but Z stays false (the code tests the un-truncated 16-bit value `0x100`)
and S becomes true (`0x100 >> 7 ≠ 0`). -/
def c6after : Processor :=
  { make_processor with a := 0, conditions := ⟨false, false, true, false, true⟩ }

/-- C6 (code_bug evidence): the claim says INR sets Z exactly when the 8-bit
result is zero (so INR of 0xFF gives Z = 1) and S = bit 7 of the result
(so S = 0 here).  The emulator yields Z = 0 and S = 1 on that input. -/
theorem c6_inr_code_bug :
    inr c6state 0x3c = some c6after ∧ c6after.a = 0 ∧
    c6after.conditions.zero = false ∧ c6after.conditions.sign = true := by
  decide

/-! ## C10 : CMA frame effect -/

/-- C10: executing opcode 0x2F (CMA) sets A to its 8-bit complement, advances
PC by exactly one, and leaves every flag, every other register, SP and
memory unchanged (the conclusion is a full record equality). -/
theorem c10_cma_frame (s : Processor) (hpc : s.pc < 0xffff)
    (hop : s.memory[s.pc]? = some 0x2f) :
    run_one_command s = some { s with a := s.a ^^^ 0xff, pc := s.pc + 1 } := by
  have hgb := get_byte_spec s 0x2f hpc hop
  unfold run_one_command
  rw [hgb]
  rfl

/-- Concrete state for the C10 witness: CMA at address 0. -/
def c10state : Processor := { make_processor with a := 0x5a, memory := [0x2f, 0, 0] }

/-- Witness for C10 at a concrete state. -/
theorem c10_cma_frame_witness :
    run_one_command c10state = some { c10state with a := c10state.a ^^^ 0xff, pc := c10state.pc + 1 } :=
  c10_cma_frame c10state (by decide) (by decide)

/-! ## C3 : totality of execution -/

/-- Initial state for the C3 evidence: the three-byte program `3A FF FF`
(LDA 0xFFFF) loaded at address 0 by `initialize_memory`. -/
def c3state : Processor :=
  { make_processor with memory := initialize_memory [0x3a, 0xff, 0xff] }

/-- Reduce `run_one_command` through a successful fetch. -/
theorem run_one_command_eq (s t : Processor) (v : Nat) (h : get_byte s = some (v, t)) :
    run_one_command s = execute t v := by
  unfold run_one_command
  rw [h]
  rfl

/-- Reduce `get_two_bytes` through two successful fetches. -/
theorem get_two_bytes_eq (s t1 t2 : Processor) (v1 v2 : Nat)
    (h1 : get_byte s = some (v1, t1)) (h2 : get_byte t1 = some (v2, t2)) :
    get_two_bytes s = some ((v2 <<< 8) ||| v1, t2) := by
  unfold get_two_bytes
  rw [h1]
  simp only [Option.bind_eq_bind, Option.some_bind]
  rw [h2]
  rfl

/-- Rust `lda` aborts when the target address is out of bounds. -/
theorem lda_none (s t : Processor) (addr : Nat)
    (h : get_two_bytes s = some (addr, t)) (hm : mem_read t addr = none) :
    lda s = none := by
  unfold lda
  rw [h]
  simp only [Option.bind_eq_bind, Option.some_bind]
  rw [hm]
  rfl

/-- Opcode 0x3A dispatches to `lda`. -/
theorem execute_3a (t : Processor) : execute t 0x3a = lda t := rfl

/-- State after fetching the opcode byte from `c3state`. -/
def c3s1 : Processor := { c3state with pc := 1 }

/-- State after fetching the first operand byte. -/
def c3s2 : Processor := { c3state with pc := 2 }

/-- State after fetching the second operand byte. -/
def c3s3 : Processor := { c3state with pc := 3 }

/-- C3 (code_bug evidence): `initialize_memory` resizes the memory to
0xffff = 65535 bytes, so the highest 16-bit address 0xFFFF is out of
bounds; running `LDA 0xFFFF` from the initial state aborts (`none`, the
model of the Vec index panic), contradicting the claim that every memory
access at any 16-bit address — including 0xFFFF — is in bounds and
execution cannot fail. -/
theorem c3_lda_ffff_fails : run_one_command c3state = none := by
  have hmem : c3state.memory = [0x3a, 0xff, 0xff] ++ List.replicate 0xfffc 0 := by
    show initialize_memory [0x3a, 0xff, 0xff] = _
    unfold initialize_memory
    have hl : ([0x3a, 0xff, 0xff] ++ List.replicate 0xfffc 0 : List Nat).length ≤ 0xffff := by
      rw [List.length_append, List.length_replicate]
      decide
    rw [show (0xffff - ([0x3a, 0xff, 0xff] : List Nat).length) = 0xfffc from rfl]
    exact List.take_of_length_le hl
  have hlen : c3state.memory.length = 0xffff := by
    rw [hmem, List.length_append, List.length_replicate]
    decide
  have h0 : c3state.memory[(0 : Nat)]? = some 0x3a := by
    rw [hmem, List.getElem?_append_left (by decide)]
    rfl
  have h1 : c3state.memory[(1 : Nat)]? = some 0xff := by
    rw [hmem, List.getElem?_append_left (by decide)]
    rfl
  have h2 : c3state.memory[(2 : Nat)]? = some 0xff := by
    rw [hmem, List.getElem?_append_left (by decide)]
    rfl
  have hoob : c3state.memory[(0xffff : Nat)]? = none :=
    List.getElem?_eq_none (le_of_eq hlen)
  have hgb0 : get_byte c3state = some (0x3a, c3s1) := by
    rw [get_byte_spec c3state 0x3a (by decide) h0]
    rfl
  have hgb1 : get_byte c3s1 = some (0xff, c3s2) := by
    rw [get_byte_spec c3s1 0xff (by decide) (by exact h1)]
    rfl
  have hgb2 : get_byte c3s2 = some (0xff, c3s3) := by
    rw [get_byte_spec c3s2 0xff (by decide) (by exact h2)]
    rfl
  have hoob3 : mem_read c3s3 0xffff = none := hoob
  have htwo : get_two_bytes c3s1 = some (0xffff, c3s3) := by
    rw [get_two_bytes_eq c3s1 c3s2 c3s3 0xff 0xff hgb1 hgb2]
    rfl
  rw [run_one_command_eq c3state c3s1 0x3a hgb0, execute_3a]
  exact lda_none c3s1 c3s3 0xffff htwo hoob3

end Intel8080
